import Mathlib

/-!
Shallow embedding of the Trello-Integrator repository.

The repository holds two drafts of a thin Trello REST client:
`src/scripts/integrator.py` (class `TrelloIntegrator` with constructor
validation, a shared `make_request` helper, and the card / lookup
operations) and the earlier draft `src/assets/scripts/integrator.py`.

Modelling conventions:
- A JSON object whose accessed values are strings is a `Record`, an
  association list; `Record.get` is Python's `dict.get` (returning `none`
  for a missing key, Python's `None`).
- Python `dict` assignment `d[k] = v` is `pyDictInsert`: it overwrites the
  value at an existing key in place, otherwise appends the new pair.
- An HTTP round trip is represented by the status code and parsed body the
  remote would answer with; `make_request` embeds the helper of the same
  name (body returned exactly when the status code equals 200, `none`
  otherwise).
- Python exceptions are the explicit error channel `Except PyError _`;
  a method that can only return (never raise) keeps a plain result type.
- Each method is state passing: it consumes the `Client` (the `self`
  object) and returns it next to its outcome, mirroring that the Python
  methods read `self.apikey` / `self.token` / `self.board_id` and assign
  no attribute.
-/

namespace Trello

/-- A JSON object restricted to the string-valued keys the code reads:
an association list from key to string value. -/
abbrev Record := List (String × String)

/-- Python `item.get(k)`: the value at the first matching key, `none`
(Python `None`) when the key is absent. -/
def Record.get (r : Record) (k : String) : Option String :=
  (r.find? (fun p => p.1 == k)).map (fun p => p.2)

/-- Python dict lookup `d[k]` as used through `.get`: generic over key and
value types. -/
def pyDictGet {κ ν : Type} [BEq κ] (d : List (κ × ν)) (k : κ) : Option ν :=
  (d.find? (fun p => p.1 == k)).map (fun p => p.2)

/-- Python dict assignment `d[k] = v`: overwrite the entry holding `k` in
place when one exists, otherwise append `(k, v)`. -/
def pyDictInsert {κ ν : Type} [BEq κ] (d : List (κ × ν)) (k : κ) (v : ν) :
    List (κ × ν) :=
  if d.any (fun p => p.1 == k) then
    d.map (fun p => if p.1 == k then (k, v) else p)
  else
    d ++ [(k, v)]

/-- Python string containment `needle in hay` over explicit character
lists: `needle` occurs contiguously in `hay`. -/
def subAt : List Char → List Char → Bool
  | [], _ => true
  | _ :: _, [] => false
  | a :: as, b :: bs => a == b && subAt as bs

/-- Containment of `needle` at some position of `hay`. -/
def containsSub (needle : List Char) : List Char → Bool
  | [] => needle.isEmpty
  | c :: rest => subAt needle (c :: rest) || containsSub needle rest

/-- Python `needle in hay` for strings: substring containment. -/
def pyIn (needle hay : String) : Bool :=
  containsSub needle.toList hay.toList

/-- The Python exceptions the module raises. -/
inductive PyError where
  | notImplementedError (msg : String)
  | typeError
  deriving DecidableEq, Repr

/-- A log line emitted through `self.logger` (or `print` in the earlier
draft). -/
inductive LogEvent where
  | info (msg : String)
  | error (msg : String)
  deriving DecidableEq, Repr

/-- The HTTP methods `make_request` dispatches on. -/
inductive Method where
  | GET
  | POST
  | PUT
  deriving DecidableEq, Repr

/-- The client state built by `TrelloIntegrator.__init__`: the resolved
credentials and the board identifier. -/
structure Client where
  apikey : String
  token : String
  board_id : String
  deriving DecidableEq, Repr

/-- `TrelloIntegrator.base_url`. -/
def base_url : String := "https://api.trello.com/1"

/-- Credential resolution in `__init__`: an empty explicit argument falls
back to `os.getenv`, which yields `none` (Python `None`) when the
environment variable is unset. -/
def credResolve (arg : String) (env : Option String) : Option String :=
  if arg = "" then env else some arg

/-- `TrelloIntegrator.__init__(apikey, token, board_id)` with the process
environment values for TRELLO_APIKEY and TRELLO_TOKEN: raises
NotImplementedError when `board_id` is empty, resolves each credential
against the environment, then raises when either resolved credential is
falsy (empty string or `None`). -/
def integratorInit (apikey token board_id : String)
    (envKey envToken : Option String) : Except PyError Client :=
  if board_id = "" then
    .error (.notImplementedError "Missing board_id. You can get it going to your BOARDS")
  else
    let k := credResolve apikey envKey
    let t := credResolve token envToken
    if k.getD "" = "" ∨ t.getD "" = "" then
      .error (.notImplementedError "Missing credentials: APIKEY and TOKEN. You can get it on the power-ups admin page")
    else
      .ok ⟨k.getD "", t.getD "", board_id⟩

/-- `TrelloIntegrator.make_request(url, params, method)`: the parsed body
exactly when the response status code equals 200, otherwise a logged error
and an implicit `None`. The method only selects which `requests` call
issues the round trip; the status check is the same for all three. -/
def make_request {α : Type} (method : Method) (status : Nat) (body : α) :
    Option α :=
  match method with
  | .GET | .POST | .PUT => if status = 200 then some body else none

/-- The outcome of a card-creation call: the query payload it built, the
value it returns, and the log line it emits. -/
structure CardOutcome where
  query : List (String × Option String)
  ret : Option Record
  log : LogEvent
  deriving DecidableEq, Repr

/-- `TrelloIntegrator.create_new_card(title, list_id, tag_id, description,
user_name, user_id)` against a response with the given status and body:
builds the query dict (conditionally adding `desc`, `idLabels`,
`idMembers`), posts it, logs success when the returned body is truthy and
an error otherwise, and returns `None` (the method has no return
statement). -/
def create_new_card (c : Client)
    (title list_id tag_id description user_name user_id : String)
    (status : Nat) (body : Record) : Client × CardOutcome :=
  let query : List (String × Option String) :=
    [("name", some title), ("idList", some list_id),
     ("key", some c.apikey), ("token", some c.token)]
  let query := if description ≠ "" then
      pyDictInsert query "desc" (some description) else query
  let query := if user_name ≠ "" then
      pyDictInsert query "desc"
        (some (description ++ "\nAssigned to: " ++ user_name)) else query
  let query := if tag_id ≠ "" then
      pyDictInsert query "idLabels" (some tag_id) else query
  let query := if user_id ≠ "" then
      pyDictInsert query "idMembers" (some user_id) else query
  let response := make_request Method.POST status body
  let log : LogEvent :=
    match response with
    | some r =>
      if r.isEmpty then .error "Error while creating card."
      else
        .info ("Task successfully created. Card title: " ++ title
          ++ ", Assigned to: " ++ user_name)
    | none => .error "Error while creating card."
  (c, { query := query, ret := none, log := log })

/-- `create_trello_card` from the earlier draft
`src/assets/scripts/integrator.py`: the query always carries
`desc = description + "\nAssigned to: " + user_name`; the parsed body is
returned exactly when the status code equals 200, otherwise the method
prints an error and returns `None`. -/
def create_trello_card (user_name user_id title description tag_id list_id : String)
    (status : Nat) (body : Record) : CardOutcome :=
  let query : List (String × Option String) :=
    [("name", some title),
     ("desc", some (description ++ "\nAssigned to: " ++ user_name)),
     ("idList", some list_id), ("idLabels", some tag_id),
     ("idMembers", some user_id)]
  if status = 200 then
    { query := query, ret := some body, log := .info "Task sccessfully created." }
  else
    { query := query, ret := none, log := .error "Error while creating card." }

/-- `TrelloIntegrator.move_cards(card_id, destination_list_id)`: issues a
PUT, logs, returns `None`. -/
def move_cards (c : Client) (card_id destination_list_id : String)
    (status : Nat) (body : Record) : Client × (Option Record × LogEvent) :=
  let response := make_request Method.PUT status body
  let log : LogEvent :=
    match response with
    | some r =>
      if r.isEmpty then .error "Error while moving the card."
      else .info ("Card successfully moved to list " ++ destination_list_id ++ ".")
    | none => .error "Error while moving the card."
  (c, (none, log))

/-- `TrelloIntegrator.archive_card(card_id)`: issues a PUT with
`closed = true`, logs, returns `None`. -/
def archive_card (c : Client) (card_id : String)
    (status : Nat) (body : Record) : Client × (Option Record × LogEvent) :=
  let response := make_request Method.PUT status body
  let log : LogEvent :=
    match response with
    | some r =>
      if r.isEmpty then .error ("Error while archiving the card " ++ card_id ++ ".")
      else .info ("Card " ++ card_id ++ " successfully archived.")
    | none => .error ("Error while archiving the card " ++ card_id ++ ".")
  (c, (none, log))

/-- An entry of the action log returned by `GET /cards/:id/actions`,
restricted to the keys `get_comments` reads: `type`, the nested `data`
dict, and the nested `memberCreator` dict. A missing key is `none`. -/
structure ActionItem where
  type : Option String
  data : Option Record
  memberCreator : Option Record
  deriving DecidableEq, Repr

/-- One record appended by `get_comments`:
`{"user": ..., "message_content": ...}`. -/
structure CommentRec where
  user : String
  message_content : String
  deriving DecidableEq, Repr

/-- The record built for one comment action:
`item.get("memberCreator", dict()).get("fullName", "")` and
`item.get("data", dict()).get("text", "")`. -/
def commentOf (item : ActionItem) : CommentRec :=
  { user := ((item.memberCreator.getD []).get "fullName").getD ""
  , message_content := ((item.data.getD []).get "text").getD "" }

/-- The accumulation loop of `get_comments`: start from `records = []` and
append one `CommentRec` per item whose `type` is `"commentCard"`. -/
def commentLoop (acc : List CommentRec) : List ActionItem → List CommentRec
  | [] => acc
  | item :: rest =>
    if item.type == some "commentCard" then
      commentLoop (acc ++ [commentOf item]) rest
    else
      commentLoop acc rest

/-- `TrelloIntegrator.get_comments(card_id)` against a response with the
given status and list of actions: when the response is truthy, the list of
comment records in response order; otherwise the implicit `None`. -/
def get_comments (c : Client) (card_id : String)
    (status : Nat) (body : List ActionItem) :
    Client × Option (List CommentRec) :=
  let response := make_request Method.GET status body
  let out : Option (List CommentRec) :=
    match response with
    | some items =>
      if items.isEmpty then none
      else some (commentLoop [] items)
    | none => none
  (c, out)

/-- The value `get_trello_element` can return: `""` or a found id
(`item.get("id")`, possibly `None`), the projected field list, or the raw
response. -/
inductive ElemResult where
  | str (s : String)
  | opt (o : Option String)
  | strList (xs : List (Option String))
  | raw (rs : List Record)
  deriving DecidableEq, Repr

/-- The target scan of `get_trello_element`: walk the records in order;
`target in item.get(key)` raises TypeError when the key is absent
(`None` is not iterable), returns `item.get("id")` at the first substring
match, and falls through to the trailing `return ""` when no record
matches. -/
def targetScan (key target : String) : List Record → Except PyError ElemResult
  | [] => .ok (.str "")
  | item :: rest =>
    match item.get key with
    | none => .error .typeError
    | some v =>
      if pyIn target v then .ok (.opt (item.get "id"))
      else targetScan key target rest

/-- `TrelloIntegrator.get_trello_element(element, key, target)` against a
response with the given status and record list: raises
NotImplementedError when `target` is truthy and `key` is not, before any
request; otherwise issues the GET and dispatches on `target` / `key`,
returning `""` for a falsy response or an exhausted scan. -/
def get_trello_element (c : Client) (element key target : String)
    (status : Nat) (body : List Record) :
    Client × Except PyError ElemResult :=
  let out : Except PyError ElemResult :=
    if target ≠ "" ∧ key = "" then
      .error (.notImplementedError "If you provide Target, you must provide also the Key to be checked.")
    else
      match make_request Method.GET status body with
      | some rs =>
        if rs.isEmpty then .ok (.str "")
        else if target ≠ "" then targetScan key target rs
        else if key ≠ "" then .ok (.strList (rs.map (fun item => item.get key)))
        else .ok (.raw rs)
      | none => .ok (.str "")
  (c, out)

/-- `TrelloIntegrator.get_lists(key="name", target)`: delegates to
`get_trello_element` over the `lists` collection. -/
def get_lists (c : Client) (target : String) (status : Nat)
    (body : List Record) : Client × Except PyError ElemResult :=
  get_trello_element c "lists" "name" target status body

/-- The dict built by the `get_cards_from_list` loop: keys are
`item.get("name")`, values `item.get("id")` (either may be `None`). -/
abbrev CardsDict := List (Option String × Option String)

/-- The accumulation loop of `get_cards_from_list`:
`cards[item.get("name")] = item.get("id")` over the response in order. -/
def buildCards (rs : List Record) : CardsDict :=
  rs.foldl (fun d item => pyDictInsert d (item.get "name") (item.get "id")) []

/-- `TrelloIntegrator.get_cards_from_list(list_name, list_id)` with the
responses of the (optional) list lookup and of the cards fetch: raises
NotImplementedError when both arguments are falsy, resolves the list id
through `get_lists` when a name is given (propagating any exception), and
maps the truthy cards response through the dict loop, returning the
implicit `None` otherwise. -/
def get_cards_from_list (c : Client) (list_name list_id : String)
    (lstatus : Nat) (lbody : List Record)
    (cstatus : Nat) (cbody : List Record) :
    Client × Except PyError (Option CardsDict) :=
  let out : Except PyError (Option CardsDict) :=
    if list_name = "" ∧ list_id = "" then
      .error (.notImplementedError "You must provide the list name or list id you want the cards from.")
    else
      let lidRes : Except PyError ElemResult :=
        if list_name ≠ "" then (get_lists c list_name lstatus lbody).2
        else .ok (.str list_id)
      match lidRes with
      | .error e => .error e
      | .ok _ =>
        match make_request Method.GET cstatus cbody with
        | some rs =>
          if rs.isEmpty then .ok none
          else .ok (some (buildCards rs))
        | none => .ok none
  (c, out)

/-! ### Helper lemmas about the embedded dict and loop operations -/

theorem pyDictGet_nil {κ ν : Type} [BEq κ] (k : κ) :
    pyDictGet ([] : List (κ × ν)) k = none := rfl

theorem pyDictGet_cons {κ ν : Type} [BEq κ] (a : κ) (b : ν) (d : List (κ × ν)) (k : κ) :
    pyDictGet ((a, b) :: d) k = if a == k then some b else pyDictGet d k := by
  cases h : a == k <;> simp [pyDictGet, List.find?_cons, h]

theorem find?_overwrite_ne {κ ν : Type} [BEq κ] [LawfulBEq κ]
    (d : List (κ × ν)) (k k' : κ) (v : ν) (h : (k == k') = false) :
    (d.map (fun p => if p.1 == k then (k, v) else p)).find? (fun p => p.1 == k') =
      d.find? (fun p => p.1 == k') := by
  induction d with
  | nil => rfl
  | cons p tl ih =>
    obtain ⟨a, b⟩ := p
    by_cases ha : (a == k) = true
    · have hak : a = k := eq_of_beq ha
      subst hak
      simp [List.find?_cons, h, ih]
    · simp only [List.map_cons, if_neg ha]
      cases hk' : a == k' <;> simp [List.find?_cons, hk', ih]

theorem find?_overwrite_found {κ ν : Type} [BEq κ] [LawfulBEq κ]
    (d : List (κ × ν)) (k : κ) (v : ν) (h : d.any (fun p => p.1 == k) = true) :
    (d.map (fun p => if p.1 == k then (k, v) else p)).find? (fun p => p.1 == k) =
      some (k, v) := by
  induction d with
  | nil => simp at h
  | cons p tl ih =>
    obtain ⟨a, b⟩ := p
    by_cases ha : (a == k) = true
    · simp [List.find?_cons, ha]
    · have h' : tl.any (fun p => p.1 == k) = true := by
        simpa [List.any_cons, ha] using h
      simp [List.find?_cons, ha, ih h']

theorem pyDictGet_pyDictInsert {κ ν : Type} [BEq κ] [LawfulBEq κ]
    (d : List (κ × ν)) (k k' : κ) (v : ν) :
    pyDictGet (pyDictInsert d k v) k' =
      if k == k' then some v else pyDictGet d k' := by
  by_cases hmem : d.any (fun p => p.1 == k) = true
  · by_cases hk : (k == k') = true
    · have hkk : k = k' := eq_of_beq hk
      subst hkk
      simp [pyDictInsert, hmem, pyDictGet, find?_overwrite_found d k v hmem]
    · simp only [pyDictInsert, if_pos hmem, pyDictGet,
        find?_overwrite_ne d k k' v (by simpa using hk)]
      simp [pyDictGet, hk]
  · have hnone : d.find? (fun p => p.1 == k) = none :=
      List.find?_eq_none.2 (fun x hx => by
        by_contra hc
        exact hmem (List.any_eq_true.2 ⟨x, hx, by simpa using hc⟩))
    by_cases hk : (k == k') = true
    · have hkk : k = k' := eq_of_beq hk
      subst hkk
      simp [pyDictInsert, hmem, pyDictGet, List.find?_append, hnone, List.find?_cons]
    · simp only [pyDictInsert, if_neg hmem, pyDictGet, List.find?_append]
      cases hfind : d.find? (fun p => p.1 == k') with
      | some p => simp [hk]
      | none => simp [List.find?_cons, hk]

theorem commentLoop_eq (items : List ActionItem) (acc : List CommentRec) :
    commentLoop acc items =
      acc ++ (items.filter (fun i => i.type == some "commentCard")).map commentOf := by
  induction items generalizing acc with
  | nil => simp [commentLoop]
  | cons item rest ih =>
    by_cases h : (item.type == some "commentCard") = true
    · simp [commentLoop, h, ih, List.filter_cons]
    · simp [commentLoop, h, ih, List.filter_cons]

theorem pyDictGet_buildCards_aux (rs : List Record) (d : CardsDict) (k : Option String) :
    pyDictGet (rs.foldl (fun d item => pyDictInsert d (item.get "name") (item.get "id")) d) k =
      match rs.reverse.find? (fun r => r.get "name" == k) with
      | some r => some (r.get "id")
      | none => pyDictGet d k := by
  induction rs generalizing d with
  | nil => simp
  | cons r tl ih =>
    rw [List.foldl_cons, ih, List.reverse_cons, List.find?_append]
    cases hfind : tl.reverse.find? (fun r => r.get "name" == k) with
    | some r' => simp [Option.or]
    | none =>
      cases hr : r.get "name" == k with
      | true =>
        have : (Option.some r).isSome := rfl
        simp [Option.or, List.find?_cons, hr, pyDictGet_pyDictInsert, eq_of_beq hr]
      | false =>
        simp [Option.or, List.find?_cons, hr, pyDictGet_pyDictInsert, hr]

theorem pyDictGet_buildCards (rs : List Record) (k : Option String) :
    pyDictGet (buildCards rs) k =
      (rs.reverse.find? (fun r => r.get "name" == k)).map (fun r => r.get "id") := by
  rw [buildCards, pyDictGet_buildCards_aux]
  cases rs.reverse.find? (fun r => r.get "name" == k) <;> simp [pyDictGet_nil]

theorem targetScan_first_match (key target : String) (pre : List Record)
    (r : Record) (post : List Record) (s : String)
    (hpre : ∀ r' ∈ pre, ∃ s', r'.get key = some s' ∧ pyIn target s' = false)
    (hr : r.get key = some s) (hs : pyIn target s = true) :
    targetScan key target (pre ++ r :: post) = .ok (.opt (r.get "id")) := by
  induction pre with
  | nil => simp [targetScan, hr, hs]
  | cons a tl ih =>
    obtain ⟨s', ha, hna⟩ := hpre a (by simp)
    simpa [targetScan, ha, hna] using
      ih (fun r' hm => hpre r' (by simp [hm]))

theorem targetScan_typeError (key target : String) (pre : List Record)
    (bad : Record) (rest : List Record)
    (hpre : ∀ r' ∈ pre, ∃ s', r'.get key = some s' ∧ pyIn target s' = false)
    (hbad : bad.get key = none) :
    targetScan key target (pre ++ bad :: rest) = .error .typeError := by
  induction pre with
  | nil => simp [targetScan, hbad]
  | cons a tl ih =>
    obtain ⟨s', ha, hna⟩ := hpre a (by simp)
    simpa [targetScan, ha, hna] using
      ih (fun r' hm => hpre r' (by simp [hm]))

theorem targetScan_total (key target : String) (rs : List Record)
    (hall : ∀ r ∈ rs, ∃ s, r.get key = some s) :
    ∃ res, targetScan key target rs = .ok res := by
  induction rs with
  | nil => exact ⟨.str "", rfl⟩
  | cons r tl ih =>
    obtain ⟨s, hs⟩ := hall r (by simp)
    by_cases hin : pyIn target s = true
    · exact ⟨.opt (r.get "id"), by simp [targetScan, hs, hin]⟩
    · obtain ⟨res, hres⟩ := ih (fun r' hm => hall r' (by simp [hm]))
      exact ⟨res, by simp [targetScan, hs, hin, hres]⟩

/-! ### Claim theorems -/

/-- C3: for every collection name, calling the lookup operation with a
non-empty `target` and an unset `key` raises the usage error
(NotImplementedError) immediately: the result is the same fixed error for
every response status and body, so no issued request can influence it. -/
theorem claim_C3_lookup_usage_error (c : Client) (element key target : String)
    (status : Nat) (body : List Record)
    (htarget : target ≠ "") (hkey : key = "") :
    (get_trello_element c element key target status body).2 =
      .error (.notImplementedError "If you provide Target, you must provide also the Key to be checked.") := by
  simp [get_trello_element, htarget, hkey]

/-- Witness for C3 at a concrete collection, target and response. -/
theorem claim_C3_lookup_usage_error_witness :
    ("x" : String) ≠ "" ∧
      (get_trello_element ⟨"k", "t", "b"⟩ "members" "" "x" 200 [[("id", "1")]]).2 =
        .error (.notImplementedError "If you provide Target, you must provide also the Key to be checked.") :=
  ⟨by decide,
   claim_C3_lookup_usage_error ⟨"k", "t", "b"⟩ "members" "" "x" 200 [[("id", "1")]]
     (by decide) rfl⟩

/-- C4: construction succeeds exactly when the board identifier is
non-empty and both credentials are non-empty after falling back to the
process environment; it raises when the board identifier is missing or
when either resolved credential stays empty (or unset, Python `None`). -/
theorem claim_C4_init_validation (apikey token board_id : String)
    (envKey envToken : Option String) :
    (board_id ≠ "" → (credResolve apikey envKey).getD "" ≠ "" →
      (credResolve token envToken).getD "" ≠ "" →
      integratorInit apikey token board_id envKey envToken =
        .ok ⟨(credResolve apikey envKey).getD "",
             (credResolve token envToken).getD "", board_id⟩) ∧
    ((board_id = "" ∨ (credResolve apikey envKey).getD "" = "" ∨
        (credResolve token envToken).getD "" = "") →
      ∃ msg, integratorInit apikey token board_id envKey envToken =
        .error (.notImplementedError msg)) := by
  constructor
  · intro hb hk ht
    simp [integratorInit, hb, hk, ht]
  · intro h
    by_cases hb : board_id = ""
    · exact ⟨"Missing board_id. You can get it going to your BOARDS",
        by simp [integratorInit, hb]⟩
    · rcases h with hb' | hk | ht
      · exact absurd hb' hb
      · exact ⟨"Missing credentials: APIKEY and TOKEN. You can get it on the power-ups admin page",
          by simp [integratorInit, hb, hk]⟩
      · exact ⟨"Missing credentials: APIKEY and TOKEN. You can get it on the power-ups admin page",
          by simp [integratorInit, hb, ht]⟩

/-- Witness for C4: a fully explicit valid triple constructs the client,
and an empty key with an unset environment raises. -/
theorem claim_C4_init_validation_witness :
    integratorInit "k" "t" "b" none none = .ok ⟨"k", "t", "b"⟩ ∧
      ∃ msg, integratorInit "" "tok" "b" none none =
        .error (.notImplementedError msg) := by
  constructor
  · exact (claim_C4_init_validation "k" "t" "b" none none).1
      (by decide) (by decide) (by decide)
  · exact (claim_C4_init_validation "" "tok" "b" none none).2
      (Or.inr (Or.inl (by decide)))

/-- C9: every operation hands back the client it was given: the
credentials and board identifier set at construction are never mutated by
card creation, move, archive, comment fetch, element lookup, or
cards-in-list. -/
theorem claim_C9_client_immutable (c : Client)
    (title list_id tag_id description user_name user_id card_id
      destination_list_id element key target list_name list_id2 : String)
    (status lstatus cstatus : Nat) (body : Record)
    (actions : List ActionItem) (coll lbody cbody : List Record) :
    (create_new_card c title list_id tag_id description user_name user_id status body).1 = c ∧
    (move_cards c card_id destination_list_id status body).1 = c ∧
    (archive_card c card_id status body).1 = c ∧
    (get_comments c card_id status actions).1 = c ∧
    (get_trello_element c element key target status coll).1 = c ∧
    (get_cards_from_list c list_name list_id2 lstatus lbody cstatus cbody).1 = c :=
  ⟨rfl, rfl, rfl, rfl, rfl, rfl⟩

/-- C1 counterexample: a card-creation request answered with success
status 200 and a non-empty created record still makes `create_new_card`
return no value — the method only logs and has no return statement, so
the claim that a successful request returns the created record is false. -/
theorem claim_C1_counterexample :
    ¬ ((create_new_card ⟨"k", "t", "b"⟩ "T" "L" "" "" "" "" 200
        [("id", "abc")]).2.ret = some [("id", "abc")]) := by
  decide

/-- C1 (amended): `create_new_card` returns no value for success and
failure alike, signaling the outcome only through its log line (a success
log exactly when the response has status 200 and a truthy body); the
earlier draft `create_trello_card` returns the parsed response body
exactly when the status code equals 200 — any other status, including the
remaining 2xx success codes, returns no value. -/
theorem claim_C1_create_card_result (c : Client)
    (title list_id tag_id description user_name user_id : String)
    (status : Nat) (body : Record) :
    (create_new_card c title list_id tag_id description user_name user_id
      status body).2.ret = none ∧
    (create_new_card c title list_id tag_id description user_name user_id
      status body).2.log =
      (if status = 200 ∧ ¬ body.isEmpty then
        .info ("Task successfully created. Card title: " ++ title
          ++ ", Assigned to: " ++ user_name)
      else .error "Error while creating card.") ∧
    (create_trello_card user_name user_id title description tag_id list_id
      status body).ret = (if status = 200 then some body else none) := by
  refine ⟨rfl, ?_, ?_⟩
  · by_cases hs : status = 200
    · by_cases hb : body.isEmpty
      · simp [create_new_card, make_request, hs, hb]
      · simp [create_new_card, make_request, hs, hb]
    · simp [create_new_card, make_request, hs]
  · by_cases hs : status = 200 <;> simp [create_trello_card, hs]

/-- C2: every response whose status code lies outside the 2xx range makes
each operation yield its absent result — `None` for the card mutations,
comment fetch and cards-in-list, the empty string for the element lookup —
and no operation raises (the lookup precondition aside, which fires before
any request). -/
theorem claim_C2_non2xx_absent (c : Client) (status : Nat)
    (hs : ¬ (200 ≤ status ∧ status ≤ 299))
    (title list_id tag_id description user_name user_id card_id
      destination_list_id element key target list_id2 : String)
    (body : Record) (actions : List ActionItem) (coll : List Record)
    (lstatus : Nat) (lbody : List Record) :
    (create_new_card c title list_id tag_id description user_name user_id
      status body).2.ret = none ∧
    (move_cards c card_id destination_list_id status body).2.1 = none ∧
    (archive_card c card_id status body).2.1 = none ∧
    (get_comments c card_id status actions).2 = none ∧
    (¬ (target ≠ "" ∧ key = "") →
      (get_trello_element c element key target status coll).2 = .ok (.str "")) ∧
    (list_id2 ≠ "" →
      (get_cards_from_list c "" list_id2 lstatus lbody status coll).2 = .ok none) := by
  have h200 : status ≠ 200 := by
    rintro rfl
    exact hs ⟨le_refl _, by norm_num⟩
  refine ⟨rfl, rfl, rfl, ?_, ?_, ?_⟩
  · simp [get_comments, make_request, h200]
  · intro hpre
    simp [get_trello_element, make_request, hpre, h200]
  · intro hid
    have hpre : ¬ (("" : String) = "" ∧ list_id2 = "") := fun h => hid h.2
    simp [get_cards_from_list, make_request, hpre, h200, hid]

/-- Witness for C2 at status 404: the comment fetch yields `None` and the
element lookup yields the empty string. -/
theorem claim_C2_non2xx_absent_witness :
    (get_comments ⟨"k", "t", "b"⟩ "c1" 404
      [⟨some "commentCard", some [("text", "hi")], some [("fullName", "Bob")]⟩]).2
      = none ∧
    (get_trello_element ⟨"k", "t", "b"⟩ "lists" "name" "x" 404
      [[("id", "1"), ("name", "X")]]).2 = .ok (.str "") := by
  have h := claim_C2_non2xx_absent ⟨"k", "t", "b"⟩ 404 (by omega)
    "T" "L" "" "" "" "" "c1" "d" "lists" "name" "x" "L2"
    [] [⟨some "commentCard", some [("text", "hi")], some [("fullName", "Bob")]⟩]
    [[("id", "1"), ("name", "X")]] 0 []
  exact ⟨h.2.2.2.1, h.2.2.2.2.1 (by decide)⟩

/-- C5: when `create_new_card` is given a non-empty assignee name, the
`desc` field of the request payload is the given description followed by
a newline and `Assigned to: ` and the name; when the assignee name is
omitted the payload carries the description unmodified — it is sent
verbatim when non-empty, and an empty description leaves the optional
`desc` field out of the payload altogether. -/
theorem claim_C5_desc_payload (c : Client)
    (title list_id tag_id description user_name user_id : String)
    (status : Nat) (body : Record) :
    (user_name ≠ "" →
      pyDictGet (create_new_card c title list_id tag_id description
          user_name user_id status body).2.query "desc"
        = some (some (description ++ "\nAssigned to: " ++ user_name))) ∧
    (user_name = "" → description ≠ "" →
      pyDictGet (create_new_card c title list_id tag_id description
          user_name user_id status body).2.query "desc"
        = some (some description)) ∧
    (user_name = "" → description = "" →
      pyDictGet (create_new_card c title list_id tag_id description
          user_name user_id status body).2.query "desc" = none) := by
  have hbase : pyDictGet [("name", some title), ("idList", some list_id),
      ("key", some c.apikey), ("token", some c.token)] "desc"
      = (none : Option (Option String)) := rfl
  have hlab : ∀ (q : List (String × Option String)) (v : Option String),
      pyDictGet (pyDictInsert q "idLabels" v) "desc" = pyDictGet q "desc" := by
    intro q v
    rw [pyDictGet_pyDictInsert, if_neg (by decide)]
  have hmem : ∀ (q : List (String × Option String)) (v : Option String),
      pyDictGet (pyDictInsert q "idMembers" v) "desc" = pyDictGet q "desc" := by
    intro q v
    rw [pyDictGet_pyDictInsert, if_neg (by decide)]
  have hdesc : ∀ (q : List (String × Option String)) (v : Option String),
      pyDictGet (pyDictInsert q "desc" v) "desc" = some v := by
    intro q v
    rw [pyDictGet_pyDictInsert, if_pos (by decide)]
  refine ⟨?_, ?_, ?_⟩
  · intro hu
    by_cases hd : description = "" <;>
      by_cases htg : tag_id = "" <;>
        by_cases hui : user_id = "" <;>
          simp [create_new_card, hu, hd, htg, hui, hdesc, hlab, hmem, hbase]
  · intro hu hd
    by_cases htg : tag_id = "" <;>
      by_cases hui : user_id = "" <;>
        simp [create_new_card, hu, hd, htg, hui, hdesc, hlab, hmem, hbase]
  · intro hu hd
    by_cases htg : tag_id = "" <;>
      by_cases hui : user_id = "" <;>
        simp [create_new_card, hu, hd, htg, hui, hdesc, hlab, hmem, hbase]

/-- Witness for C5: with assignee `V` the payload `desc` is
`D\nAssigned to: V`; without an assignee it is `D` verbatim. -/
theorem claim_C5_desc_payload_witness :
    pyDictGet (create_new_card ⟨"k", "t", "b"⟩ "T" "L" "" "D" "V" ""
        200 []).2.query "desc" = some (some "D\nAssigned to: V") ∧
    pyDictGet (create_new_card ⟨"k", "t", "b"⟩ "T" "L" "" "D" "" ""
        200 []).2.query "desc" = some (some "D") := by
  constructor
  · exact (claim_C5_desc_payload ⟨"k", "t", "b"⟩ "T" "L" "" "D" "V" "" 200 []).1
      (by decide)
  · exact (claim_C5_desc_payload ⟨"k", "t", "b"⟩ "T" "L" "" "D" "" "" 200 []).2.1
      rfl (by decide)

/-- C6: over a successful collection response, the lookup with a field and
a target scans the records in order and returns the id of the first record
whose field value contains the target as a substring: every record before
the match carries a field value not containing the target, and the result
is that first matching record's id. -/
theorem claim_C6_first_substring_match (c : Client) (element key target : String)
    (pre : List Record) (r : Record) (post : List Record) (s : String)
    (hkey : key ≠ "") (htarget : target ≠ "")
    (hpre : ∀ r' ∈ pre, ∃ s', r'.get key = some s' ∧ pyIn target s' = false)
    (hr : r.get key = some s) (hs : pyIn target s = true) :
    (get_trello_element c element key target 200 (pre ++ r :: post)).2 =
      .ok (.opt (r.get "id")) := by
  have hne : ¬ (target ≠ "" ∧ key = "") := fun h => hkey h.2
  have hscan := targetScan_first_match key target pre r post s hpre hr hs
  simp [get_trello_element, make_request, hne, htarget, hkey, hscan]

/-- Witness for C6: the spec example — records Backlog and Done, field
`name`, target `Back` — returns the identifier `1`. -/
theorem claim_C6_first_substring_match_witness :
    (get_trello_element ⟨"k", "t", "b"⟩ "lists" "name" "Back" 200
      [[("id", "1"), ("name", "Backlog")], [("id", "2"), ("name", "Done")]]).2 =
      .ok (.opt (some "1")) := by
  have h := claim_C6_first_substring_match ⟨"k", "t", "b"⟩ "lists" "name" "Back"
    [] [("id", "1"), ("name", "Backlog")] [[("id", "2"), ("name", "Done")]]
    "Backlog" (by decide) (by decide) (by simp) rfl (by decide)
  exact h

/-- C7: `get_cards_from_list` maps a truthy cards response through the
dict loop, and looking up any title in the produced dict yields the id of
the LAST record in the response carrying that title (later entries
overwrite earlier ones on collision). -/
theorem claim_C7_cards_later_wins (c : Client) (list_id : String)
    (rs : List Record) (hid : list_id ≠ "") (hrs : rs ≠ [])
    (lstatus : Nat) (lbody : List Record) :
    (get_cards_from_list c "" list_id lstatus lbody 200 rs).2 =
      .ok (some (buildCards rs)) ∧
    ∀ k, pyDictGet (buildCards rs) k =
      (rs.reverse.find? (fun r => r.get "name" == k)).map (fun r => r.get "id") := by
  constructor
  · have hpre : ¬ (("" : String) = "" ∧ list_id = "") := fun h => hid h.2
    cases rs with
    | nil => exact absurd rfl hrs
    | cons a tl => simp [get_cards_from_list, make_request, hpre, hid]
  · intro k
    exact pyDictGet_buildCards rs k

/-- Witness for C7: the spec example — two cards titled `A` with ids `x`
then `y` — produces the one-entry dict mapping `A` to `y`. -/
theorem claim_C7_cards_later_wins_witness :
    (get_cards_from_list ⟨"k", "t", "b"⟩ "" "L" 0 [] 200
      [[("name", "A"), ("id", "x")], [("name", "A"), ("id", "y")]]).2 =
      .ok (some [(some "A", some "y")]) ∧
    pyDictGet (buildCards [[("name", "A"), ("id", "x")], [("name", "A"), ("id", "y")]])
      (some "A") = some (some "y") := by
  have h := claim_C7_cards_later_wins ⟨"k", "t", "b"⟩ "L"
    [[("name", "A"), ("id", "x")], [("name", "A"), ("id", "y")]]
    (by decide) (by decide) 0 []
  constructor
  · rw [h.1]
    rfl
  · rw [h.2 (some "A")]
    decide

/-- C8: over a truthy successful response, `get_comments` returns, in
response order, exactly one record per action whose type is
`commentCard` — author from `memberCreator.fullName`, message from
`data.text` — and skips every action of any other type. -/
theorem claim_C8_comment_filter (c : Client) (card_id : String)
    (items : List ActionItem) (hne : items ≠ []) :
    (get_comments c card_id 200 items).2 =
      some ((items.filter (fun i => i.type == some "commentCard")).map commentOf) := by
  cases items with
  | nil => exact absurd rfl hne
  | cons a tl => simp [get_comments, make_request, commentLoop_eq]

/-- Witness for C8: the spec example — one comment action by Bob saying
`hi` next to one action of another type — yields exactly that record. -/
theorem claim_C8_comment_filter_witness :
    (get_comments ⟨"k", "t", "b"⟩ "c1" 200
      [⟨some "commentCard", some [("text", "hi")], some [("fullName", "Bob")]⟩,
       ⟨some "other", none, none⟩]).2 = some [⟨"Bob", "hi"⟩] := by
  have h := claim_C8_comment_filter ⟨"k", "t", "b"⟩ "c1"
    [⟨some "commentCard", some [("text", "hi")], some [("fullName", "Bob")]⟩,
     ⟨some "other", none, none⟩] (by decide)
  rw [h]
  decide

/-- C10: when the scanned collection holds, before any matching record, a
record lacking the queried field, the substring test raises TypeError
(`target in None`) instead of returning an absent result; and the scan is
total — returns without raising — whenever every scanned record maps the
queried field to a string. -/
theorem claim_C10_missing_field_raises (c : Client) (element key target : String)
    (pre : List Record) (bad : Record) (rest : List Record)
    (hkey : key ≠ "") (htarget : target ≠ "")
    (hpre : ∀ r' ∈ pre, ∃ s', r'.get key = some s' ∧ pyIn target s' = false)
    (hbad : bad.get key = none) :
    (get_trello_element c element key target 200 (pre ++ bad :: rest)).2 =
      .error .typeError ∧
    ∀ rs : List Record, (∀ r ∈ rs, ∃ s, r.get key = some s) →
      ∃ res, (get_trello_element c element key target 200 rs).2 = .ok res := by
  have hne : ¬ (target ≠ "" ∧ key = "") := fun h => hkey h.2
  constructor
  · have hscan := targetScan_typeError key target pre bad rest hpre hbad
    simp [get_trello_element, make_request, hne, htarget, hkey, hscan]
  · intro rs hall
    cases rs with
    | nil => exact ⟨.str "", by simp [get_trello_element, make_request, hne]⟩
    | cons a tl =>
      obtain ⟨res, hres⟩ := targetScan_total key target (a :: tl) hall
      exact ⟨res, by simp [get_trello_element, make_request, hne, htarget, hkey, hres]⟩

/-- Witness for C10: a single record holding only an id, scanned for the
`name` field, raises TypeError. -/
theorem claim_C10_missing_field_raises_witness :
    (get_trello_element ⟨"k", "t", "b"⟩ "lists" "name" "x" 200
      [[("id", "1")]]).2 = .error .typeError := by
  have h := claim_C10_missing_field_raises ⟨"k", "t", "b"⟩ "lists" "name" "x"
    [] [("id", "1")] [] (by decide) (by decide) (by simp) rfl
  exact h.1

end Trello
